import Mathlib

/-!
Shallow embedding of `kodi_addon_checker/check_artwork.py` (the artwork
validation core of the addon-check tool), together with theorems settling
the specification claims about it.

External collaborators (PIL image decoding, the file system, the XML tree,
the Kodi version comparator, the path relativizer) are modelled as fields of
an environment record `Env`; everything that is code of `check_artwork.py`
itself is translated definition by definition below, keeping the source's
names and control flow.
-/

namespace CheckArtwork

/-- Diagnostic severities, from `record.py` (external collaborator):
`INFORMATION`, `WARNING`, `PROBLEM`. -/
inductive Severity where
  | INFORMATION
  | WARNING
  | PROBLEM
deriving DecidableEq

/-- One constructor per `Record(...)` construction site in
`check_artwork.py`, carrying exactly the data interpolated into that site's
format string.  `render` below maps each constructor back to the literal
message text of the source. -/
inductive Msg where
  /-- line 47: loose-image scan decode failure (note the space before `?`
  in the source string, unlike `corrupted`). -/
  | looseCorrupted (relpath : String)
  /-- line 63: "Image %s exists" -/
  | imageExists (image_type : String)
  /-- line 66: "Image %s should be explicitly declared in addon.xml <assets>." -/
  | shouldBeDeclared (image_type : String)
  /-- line 76: "Could not open image, is the file corrupted? %s" -/
  | corrupted (relpath : String)
  /-- line 82: "You might want to add a %s" -/
  | mightWantToAdd (image_type : String)
  /-- line 87: "%s does not exist at specified path." -/
  | doesNotExist (image_type : String)
  /-- line 90: "Empty image tag found for %s" -/
  | emptyImageTag (image_type : String)
  | iconWrongFormat (ext : String)
  | iconTransparent
  | iconWrongSize (w h : Nat)
  | iconSizeFine (w h : Nat)
  | fanartWrongFormat (ext : String)
  | fanartWrongSize (w h : Nat)
  | fanartSizeFine (w h : Nat)
  | bannerWrongFormat (ext : String)
  | bannerTransparent
  | bannerWrongSize (w h : Nat)
  | bannerSizeFine (w h : Nat)
  | clearlogoWrongFormat (ext : String)
  | clearlogoOpaque
  | clearlogoWrongSize (w h : Nat)
  | clearlogoSizeFine (w h : Nat)
  | screenshotWrongFormat (filename ext : String)
  | screenshotTransparent (filename : String)
  | screenshotWrongSize (filename : String) (w h : Nat)
  | screenshotSizeFine (filename : String) (w h : Nat)
deriving DecidableEq

/-- A diagnostic record: `Record(severity, message)` from `record.py`. -/
structure Record where
  severity : Severity
  message : Msg
deriving DecidableEq

/-- The result of a successful `PIL.Image.open`: `im.size` gives width and
height, and `has_transparency(im)` (external collaborator from `common.py`)
gives the transparency flag. -/
structure Img where
  width : Nat
  height : Nat
  transparency : Bool
deriving DecidableEq

/-- One entry of `file_index`: a dict with keys `"name"` and `"path"`. -/
structure FileRecord where
  name : String
  path : String
deriving DecidableEq

/-- The environment: the validator's inputs plus the external collaborators
it consults.  `assets t` models `parsed_xml.findall("./extension/assets/" + t)`
mapped through `.text` (ElementTree yields `None` for an empty tag, hence
`Option String`); `isFile` models `os.path.isfile`; `decode` models
`PIL.Image.open` plus attribute extraction, `none` meaning the `IOError`
decode-failure outcome; `kodiGeKrypton` models the external comparison
`kodi_version >= KodiVersion("krypton")`; `relPath` models `relative_path`
from `common.py` (display only). -/
structure Env where
  addonPath : String
  assets : String → List (Option String)
  isFile : String → Bool
  decode : String → Option Img
  fileIndex : List FileRecord
  kodiGeKrypton : Bool
  relPath : String → String

/-- Python string containment `needle in haystack` (substring test,
case-sensitive). -/
def substrIn (needle haystack : String) : Bool :=
  (List.range (haystack.toList.length + 1)).any
    (fun i => needle.toList.isPrefixOf (haystack.toList.drop i))

/-- Python `s.startswith(pre)`. -/
def strStartsWith (s pre : String) : Bool :=
  pre.toList.isPrefixOf s.toList

/-- Python's regex-suffix test `s` ends with `suf` (case-sensitive). -/
def strEndsWith (s suf : String) : Bool :=
  suf.toList.isSuffixOf s.toList

/-- Index of the last occurrence of `c` in `cs`, or `none`:
Python's `str.rfind` restricted to single characters. -/
def rfindIdx (cs : List Char) (c : Char) : Option Nat :=
  (List.range cs.length).foldl
    (fun acc i => if cs.get? i = some c then some i else acc) none

/-- Python `os.path.splitext` (POSIX flavour): split at the last `.` of the
last path component, except that leading dots of the component never start
an extension; returns `(root, extension)`. -/
def splitext (p : String) : String × String :=
  let cs := p.toList
  let sepIndex : Int := match rfindIdx cs '/' with | none => -1 | some i => i
  let dotIndex : Int := match rfindIdx cs '.' with | none => -1 | some i => i
  if sepIndex < dotIndex then
    let start := (sepIndex + 1).toNat
    let d := dotIndex.toNat
    if ((cs.drop start).take (d - start)).any (fun ch => ch ≠ '.') then
      (String.mk (cs.take d), String.mk (cs.drop d))
    else (p, "")
  else (p, "")

/-- Python `os.path.join(a, b)` (POSIX flavour, two arguments). -/
def osJoin (a b : String) : String :=
  if strStartsWith b "/" then b
  else if a = "" ∨ strEndsWith a "/" then a ++ b
  else a ++ "/" ++ b

/-- `report.add(record)`: the diagnostic sink is append-only. -/
def reportAdd (report : List Record) (r : Record) : List Record :=
  report ++ [r]

/-- The type of a per-role check callback: `(report, im, filepath, width,
height)`, returning the updated report. -/
abbrev CheckCb := List Record → Img → String → Nat → Nat → List Record

/-- `icon_sizes` from `_check_icon`. -/
def icon_sizes : List (Nat × Nat) := [(256, 256), (512, 512)]

/-- `fanart_sizes` from `_check_fanart`. -/
def fanart_sizes : List (Nat × Nat) := [(1280, 720), (1920, 1080), (3840, 2160)]

/-- `required_banner_size` from `_check_banner`. -/
def required_banner_size : Nat × Nat := (1000, 185)

/-- `clearlogo_sizes` from `_check_clearlogo`. -/
def clearlogo_sizes : List (Nat × Nat) := [(400, 155), (800, 310)]

/-- `screenshot_sizes` from `_check_screenshot`. -/
def screenshot_sizes : List (Nat × Nat) := [(1280, 720), (1920, 1080)]

/-- `_check_icon` (lines 114-138): extension must be `.png`, the image must
be opaque, and the dimensions must lie in `icon_sizes`; each violation is an
independent PROBLEM, and a dimension match is an INFORMATION. -/
def check_icon : CheckCb := fun report im filepath width height =>
  let fileextension := (splitext filepath).2
  let r1 := if fileextension ≠ ".png" then
      reportAdd report ⟨.PROBLEM, .iconWrongFormat fileextension⟩
    else report
  let r2 := if im.transparency then
      reportAdd r1 ⟨.PROBLEM, .iconTransparent⟩
    else r1
  if (width, height) ∉ icon_sizes then
    reportAdd r2 ⟨.PROBLEM, .iconWrongSize width height⟩
  else
    reportAdd r2 ⟨.INFORMATION, .iconSizeFine width height⟩

/-- `_check_fanart` (lines 141-161): extension must be `.jpg` or `.jpeg`,
dimensions must lie in `fanart_sizes`; no transparency check. -/
def check_fanart : CheckCb := fun report _im filepath width height =>
  let fileextension := (splitext filepath).2
  let r1 := if fileextension ∉ [".jpg", ".jpeg"] then
      reportAdd report ⟨.PROBLEM, .fanartWrongFormat fileextension⟩
    else report
  if (width, height) ∉ fanart_sizes then
    reportAdd r1 ⟨.PROBLEM, .fanartWrongSize width height⟩
  else
    reportAdd r1 ⟨.INFORMATION, .fanartSizeFine width height⟩

/-- `_check_banner` (lines 164-188): extension must be `.jpg` or `.jpeg`,
the image must be opaque, and the dimensions must equal
`required_banner_size`. -/
def check_banner : CheckCb := fun report im filepath width height =>
  let fileextension := (splitext filepath).2
  let r1 := if fileextension ∉ [".jpg", ".jpeg"] then
      reportAdd report ⟨.PROBLEM, .bannerWrongFormat fileextension⟩
    else report
  let r2 := if im.transparency then
      reportAdd r1 ⟨.PROBLEM, .bannerTransparent⟩
    else r1
  if (width, height) ≠ required_banner_size then
    reportAdd r2 ⟨.PROBLEM, .bannerWrongSize width height⟩
  else
    reportAdd r2 ⟨.INFORMATION, .bannerSizeFine width height⟩

/-- `_check_clearlogo` (lines 191-215): extension must be `.png`, the image
must HAVE transparency (opaque is flagged), dimensions in
`clearlogo_sizes`. -/
def check_clearlogo : CheckCb := fun report im filepath width height =>
  let fileextension := (splitext filepath).2
  let r1 := if fileextension ≠ ".png" then
      reportAdd report ⟨.PROBLEM, .clearlogoWrongFormat fileextension⟩
    else report
  let r2 := if !im.transparency then
      reportAdd r1 ⟨.PROBLEM, .clearlogoOpaque⟩
    else r1
  if (width, height) ∉ clearlogo_sizes then
    reportAdd r2 ⟨.PROBLEM, .clearlogoWrongSize width height⟩
  else
    reportAdd r2 ⟨.INFORMATION, .clearlogoSizeFine width height⟩

/-- `_check_screenshot` (lines 218-244): extension must be `.jpg` or
`.jpeg`, the image must be opaque (a transparent screenshot is flagged
PROBLEM), dimensions in `screenshot_sizes`; the messages interpolate the
extension-stripped `filename`. -/
def check_screenshot : CheckCb := fun report im filepath width height =>
  let filename := (splitext filepath).1
  let fileextension := (splitext filepath).2
  let r1 := if fileextension ∉ [".jpg", ".jpeg"] then
      reportAdd report ⟨.PROBLEM, .screenshotWrongFormat filename fileextension⟩
    else report
  let r2 := if im.transparency then
      reportAdd r1 ⟨.PROBLEM, .screenshotTransparent filename⟩
    else r1
  if (width, height) ∉ screenshot_sizes then
    reportAdd r2 ⟨.PROBLEM, .screenshotWrongSize filename width height⟩
  else
    reportAdd r2 ⟨.INFORMATION, .screenshotSizeFine filename width height⟩

/-- `skip_addon_types` from `_assests` (line 103). -/
def skip_addon_types : List String := [".module.", "metadata.", "context.", ".language."]

/-- `_assests` (lines 93-111): collect the declared asset texts for
`image_type`; when there are none, the icon role falls back to `icon.png`,
and the fanart role falls back to `fanart.jpg` unless `addon_path` contains
one of `skip_addon_types` as a substring (the `for`/`else` in the source:
the fallback is taken only when the loop finds no match). -/
def assests (image_type : String) (parsed_xml : String → List (Option String))
    (addon_path : String) : Bool × List (Option String) :=
  let images := parsed_xml image_type
  if images = [] ∧ image_type = "icon" then
    (true, images ++ [some "icon.png"])
  else if images = [] ∧ image_type = "fanart" then
    if skip_addon_types.any (fun t => substrIn t addon_path) then
      (false, images)
    else
      (true, images ++ [some "fanart.jpg"])
  else
    (false, images)

/-- Python truthiness of an ElementTree `.text` value: `None` and the empty
string are falsy (the `if image:` test on line 59). -/
def truthy : Option String → Bool
  | none => false
  | some s => s ≠ ""

/-- The body of the `for image in images:` loop of `_check_image_type`
(lines 58-90), for one candidate entry. -/
def checkImage (env : Env) (image_type : String) (cb : CheckCb) (fallback : Bool)
    (image : Option String) (report : List Record) : List Record :=
  match image with
  | some s =>
    if s = "" then
      reportAdd report ⟨.WARNING, .emptyImageTag image_type⟩
    else
      let filepath := osJoin env.addonPath s
      if env.isFile filepath then
        let r1 := reportAdd report ⟨.INFORMATION, .imageExists image_type⟩
        let r2 := if fallback ∧ env.kodiGeKrypton then
            reportAdd r1 ⟨.PROBLEM, .shouldBeDeclared image_type⟩
          else r1
        match env.decode filepath with
        | some im => cb r2 im filepath im.width im.height
        | none => reportAdd r2 ⟨.PROBLEM, .corrupted (env.relPath filepath)⟩
      else
        if fallback then
          reportAdd report ⟨.INFORMATION, .mightWantToAdd image_type⟩
        else
          reportAdd report ⟨.PROBLEM, .doesNotExist image_type⟩
  | none => reportAdd report ⟨.WARNING, .emptyImageTag image_type⟩

/-- The `for image in images:` loop of `_check_image_type`. -/
def checkImages (env : Env) (image_type : String) (cb : CheckCb) (fallback : Bool) :
    List (Option String) → List Record → List Record
  | [], report => report
  | image :: rest, report =>
    checkImages env image_type cb fallback rest (checkImage env image_type cb fallback image report)

/-- `_check_image_type` (lines 50-90): resolve the role via `_assests`, then
process every candidate entry. -/
def check_image_type (env : Env) (asset : String × CheckCb) (report : List Record) :
    List Record :=
  let fi := assests asset.1 env.assets env.addonPath
  checkImages env asset.1 asset.2 fi.1 fi.2 report

/-- `art_assets` (lines 29-35), in source order. -/
def art_assets : List (String × CheckCb) :=
  [("icon", check_icon),
   ("fanart", check_fanart),
   ("screenshot", check_screenshot),
   ("banner", check_banner),
   ("clearlogo", check_clearlogo)]

/-- The `for asset in art_assets:` loop of `check_artwork` (lines 37-38). -/
def checkAssetsLoop (env : Env) : List (String × CheckCb) → List Record → List Record
  | [], report => report
  | a :: rest, report => checkAssetsLoop env rest (check_image_type env a report)

/-- The portion of `name` that the regex anchor `$` closes over: Python's
`$` (without `re.MULTILINE`) matches at the end of the string and also just
before a newline that ends the string, so at most one trailing newline is
discounted. -/
def dollarCore (name : String) : String :=
  if name.toList.getLast? = some '\n' then String.mk name.toList.dropLast else name

/-- The loose-image regex test (line 41):
`re.match(r"(?!fanart\.jpg|icon\.png).*\.(png|jpg|jpeg|gif)$", name)`.
`re.match` anchors at the start of the string, so the negative lookahead
rejects every name that STARTS WITH `fanart.jpg` or `icon.png`.  For the
rest of the pattern, `.` does not match a newline and the literal suffix
contains none, so everything before the final `$` must be newline-free,
while `$` itself admits one trailing newline (`dollarCore`): the pattern
accepts exactly the names whose `dollarCore` is newline-free and ends in
one of the four suffixes. -/
def looseImageMatch (name : String) : Bool :=
  (!(strStartsWith name "fanart.jpg") && !(strStartsWith name "icon.png")) &&
  (!((dollarCore name).toList.contains '\n')) &&
  (strEndsWith (dollarCore name) ".png" || strEndsWith (dollarCore name) ".jpg" ||
   strEndsWith (dollarCore name) ".jpeg" || strEndsWith (dollarCore name) ".gif")

/-- The body of the `for file in file_index:` loop of `check_artwork`
(lines 40-47), for one file record. -/
def looseStep (env : Env) (f : FileRecord) (report : List Record) : List Record :=
  if looseImageMatch f.name then
    let image_path := osJoin f.path f.name
    match env.decode image_path with
    | some _ => report
    | none => reportAdd report ⟨.PROBLEM, .looseCorrupted (env.relPath image_path)⟩
  else report

/-- The `for file in file_index:` loop of `check_artwork`. -/
def looseScan (env : Env) : List FileRecord → List Record → List Record
  | [], report => report
  | f :: rest, report => looseScan env rest (looseStep env f report)

/-- `check_artwork` (lines 23-47): run the five role checks in order, then
the loose-image scan over the file index. -/
def check_artwork (env : Env) (report : List Record) : List Record :=
  looseScan env env.fileIndex (checkAssetsLoop env art_assets report)

/-- `" or ".join(["%dx%d" % (w, h) for w, h in sizes])` from the source. -/
def sizesStr (sizes : List (Nat × Nat)) : String :=
  String.intercalate " or " (sizes.map (fun p => toString p.1 ++ "x" ++ toString p.2))

/-- The literal message text of each `Record` site in `check_artwork.py`,
reconstructing every `%`-interpolation. -/
def render : Msg → String
  | .looseCorrupted p => "Could not open image, is the file corrupted ? " ++ p
  | .imageExists t => "Image " ++ t ++ " exists"
  | .shouldBeDeclared t => "Image " ++ t ++ " should be explicitly declared in addon.xml <assets>."
  | .corrupted p => "Could not open image, is the file corrupted? " ++ p
  | .mightWantToAdd t => "You might want to add a " ++ t
  | .doesNotExist t => t ++ " does not exist at specified path."
  | .emptyImageTag t => "Empty image tag found for " ++ t
  | .iconWrongFormat e => "Icon should be in the png format, provided icon is " ++ e ++ "."
  | .iconTransparent => "Icon should be solid. It has transparency."
  | .iconWrongSize w h =>
      "Icon should have either 256x256 or 512x512 but it has " ++ toString w ++ "x" ++ toString h
  | .iconSizeFine w h => "Icon dimensions are fine " ++ toString w ++ "x" ++ toString h
  | .fanartWrongFormat e => "Fanart should be in the jpeg format, provided fanart is " ++ e ++ "."
  | .fanartWrongSize w h =>
      "Fanart should have either " ++ sizesStr fanart_sizes ++ " but it has "
        ++ toString w ++ "x" ++ toString h
  | .fanartSizeFine w h => "Fanart dimensions are fine " ++ toString w ++ "x" ++ toString h
  | .bannerWrongFormat e => "Banner should be in the jpeg format, provided banner is " ++ e ++ "."
  | .bannerTransparent => "Banner should be solid. It has transparency."
  | .bannerWrongSize w h =>
      "Banner should have 1000x185 but it has " ++ toString w ++ "x" ++ toString h
  | .bannerSizeFine w h => "Banner dimensions are fine " ++ toString w ++ "x" ++ toString h
  | .clearlogoWrongFormat e =>
      "Clearlogo should be in the png format, provided clearlogo is " ++ e ++ "."
  | .clearlogoOpaque => "Clearlogo should have transparency. It is solid."
  | .clearlogoWrongSize w h =>
      "Clearlogo should have either " ++ sizesStr clearlogo_sizes ++ " but it has "
        ++ toString w ++ "x" ++ toString h
  | .clearlogoSizeFine w h => "Clearlogo dimensions are fine " ++ toString w ++ "x" ++ toString h
  | .screenshotWrongFormat fn e =>
      "Screenshot should be in the jpeg format, " ++ fn ++ " is " ++ e ++ "."
  | .screenshotTransparent fn => "Screenshot should be solid. " ++ fn ++ " has transparency."
  | .screenshotWrongSize fn w h =>
      "Screenshot should have either " ++ sizesStr screenshot_sizes ++ " but " ++ fn
        ++ " has " ++ toString w ++ "x" ++ toString h
  | .screenshotSizeFine fn w h =>
      "Screenshot " ++ fn ++ " dimensions are fine " ++ toString w ++ "x" ++ toString h

/-- Is a message the "Image %s should be explicitly declared" PROBLEM? -/
def isDeclMsg : Msg → Bool
  | .shouldBeDeclared _ => true
  | _ => false

/-- Is a message one of the ten dimension diagnostics (wrong-size PROBLEM or
size-fine INFORMATION of any role)? -/
def isDimensionMsg : Msg → Bool
  | .iconWrongSize _ _ => true
  | .iconSizeFine _ _ => true
  | .fanartWrongSize _ _ => true
  | .fanartSizeFine _ _ => true
  | .bannerWrongSize _ _ => true
  | .bannerSizeFine _ _ => true
  | .clearlogoWrongSize _ _ => true
  | .clearlogoSizeFine _ _ => true
  | .screenshotWrongSize _ _ _ => true
  | .screenshotSizeFine _ _ _ => true
  | _ => false

/-- The accepted dimension set of each role, collecting the source's
`icon_sizes`, `fanart_sizes`, `required_banner_size`, `clearlogo_sizes` and
`screenshot_sizes`. -/
def acceptedSizes : String → List (Nat × Nat)
  | "icon" => icon_sizes
  | "fanart" => fanart_sizes
  | "banner" => [required_banner_size]
  | "clearlogo" => clearlogo_sizes
  | "screenshot" => screenshot_sizes
  | _ => []

/-- A concrete environment (no declared assets, every path exists, every
file decodes to an opaque 256×256 image, Kodi version at least krypton)
used to instantiate theorems with hypotheses. -/
def env0 : Env :=
  { addonPath := "addon"
    assets := fun _ => []
    isFile := fun _ => true
    decode := fun _ => some ⟨256, 256, false⟩
    fileIndex := []
    kodiGeKrypton := true
    relPath := fun s => s }

/-- Like `env0` but no file exists and the Kodi version is below krypton. -/
def env1 : Env :=
  { env0 with isFile := fun _ => false, kodiGeKrypton := false }

/-- Like `env0` but every decode fails and the Kodi version is below
krypton. -/
def env2 : Env :=
  { env0 with decode := fun _ => none, kodiGeKrypton := false }

/-- A concrete environment declaring a screenshot whose file exists and
decodes to a transparent 1280×720 image. -/
def envC1 : Env :=
  { addonPath := "addon"
    assets := fun t => if t = "screenshot" then [some "screenshot.jpg"] else []
    isFile := fun _ => true
    decode := fun _ => some ⟨1280, 720, true⟩
    fileIndex := []
    kodiGeKrypton := false
    relPath := fun s => s }

/-- A concrete environment whose file index holds two undecodable files:
`icon.png.jpg` (not exactly `icon.png`, but starting with it) and a name
with an interior newline that still ends in `.png`. -/
def envC2 : Env :=
  { addonPath := ""
    assets := fun _ => []
    isFile := fun _ => false
    decode := fun _ => none
    fileIndex := [⟨"icon.png.jpg", "p"⟩, ⟨"a\nb.png", "p"⟩]
    kodiGeKrypton := false
    relPath := fun s => s }

/-! ## Helper lemmas: explicit emission form of each per-role check -/

theorem check_icon_eq (report : List Record) (im : Img) (fp : String) (w h : Nat) :
    check_icon report im fp w h = report ++
      ((if (splitext fp).2 ≠ ".png" then [⟨.PROBLEM, .iconWrongFormat (splitext fp).2⟩] else []) ++
       (if im.transparency then [⟨.PROBLEM, .iconTransparent⟩] else []) ++
       (if (w, h) ∉ icon_sizes then [⟨.PROBLEM, .iconWrongSize w h⟩]
        else [⟨.INFORMATION, .iconSizeFine w h⟩])) := by
  simp only [check_icon, reportAdd]
  split_ifs <;> simp

theorem check_fanart_eq (report : List Record) (im : Img) (fp : String) (w h : Nat) :
    check_fanart report im fp w h = report ++
      ((if (splitext fp).2 ∉ [".jpg", ".jpeg"] then
          [⟨.PROBLEM, .fanartWrongFormat (splitext fp).2⟩] else []) ++
       (if (w, h) ∉ fanart_sizes then [⟨.PROBLEM, .fanartWrongSize w h⟩]
        else [⟨.INFORMATION, .fanartSizeFine w h⟩])) := by
  simp only [check_fanart, reportAdd]
  split_ifs <;> simp

theorem check_banner_eq (report : List Record) (im : Img) (fp : String) (w h : Nat) :
    check_banner report im fp w h = report ++
      ((if (splitext fp).2 ∉ [".jpg", ".jpeg"] then
          [⟨.PROBLEM, .bannerWrongFormat (splitext fp).2⟩] else []) ++
       (if im.transparency then [⟨.PROBLEM, .bannerTransparent⟩] else []) ++
       (if (w, h) ≠ required_banner_size then [⟨.PROBLEM, .bannerWrongSize w h⟩]
        else [⟨.INFORMATION, .bannerSizeFine w h⟩])) := by
  simp only [check_banner, reportAdd]
  split_ifs <;> simp

theorem check_clearlogo_eq (report : List Record) (im : Img) (fp : String) (w h : Nat) :
    check_clearlogo report im fp w h = report ++
      ((if (splitext fp).2 ≠ ".png" then
          [⟨.PROBLEM, .clearlogoWrongFormat (splitext fp).2⟩] else []) ++
       (if !im.transparency then [⟨.PROBLEM, .clearlogoOpaque⟩] else []) ++
       (if (w, h) ∉ clearlogo_sizes then [⟨.PROBLEM, .clearlogoWrongSize w h⟩]
        else [⟨.INFORMATION, .clearlogoSizeFine w h⟩])) := by
  simp only [check_clearlogo, reportAdd]
  split_ifs <;> simp

theorem check_screenshot_eq (report : List Record) (im : Img) (fp : String) (w h : Nat) :
    check_screenshot report im fp w h = report ++
      ((if (splitext fp).2 ∉ [".jpg", ".jpeg"] then
          [⟨.PROBLEM, .screenshotWrongFormat (splitext fp).1 (splitext fp).2⟩] else []) ++
       (if im.transparency then [⟨.PROBLEM, .screenshotTransparent (splitext fp).1⟩] else []) ++
       (if (w, h) ∉ screenshot_sizes then [⟨.PROBLEM, .screenshotWrongSize (splitext fp).1 w h⟩]
        else [⟨.INFORMATION, .screenshotSizeFine (splitext fp).1 w h⟩])) := by
  simp only [check_screenshot, reportAdd]
  split_ifs <;> simp

/-- Every per-role check only appends to the report it is given. -/
theorem check_append (asset : String × CheckCb) (hmem : asset ∈ art_assets)
    (report : List Record) (im : Img) (fp : String) (w h : Nat) :
    asset.2 report im fp w h = report ++ asset.2 [] im fp w h := by
  fin_cases hmem <;>
    simp only [check_icon_eq, check_fanart_eq, check_screenshot_eq, check_banner_eq,
      check_clearlogo_eq, List.nil_append, List.append_assoc]

/-- No per-role check ever emits the "should be explicitly declared"
message. -/
theorem countP_decl_check (asset : String × CheckCb) (hmem : asset ∈ art_assets)
    (report : List Record) (im : Img) (fp : String) (w h : Nat) :
    (asset.2 report im fp w h).countP (fun r => isDeclMsg r.message) =
      report.countP (fun r => isDeclMsg r.message) := by
  fin_cases hmem <;>
    · simp only [check_icon_eq, check_fanart_eq, check_screenshot_eq, check_banner_eq,
        check_clearlogo_eq, List.countP_append]
      split_ifs <;> simp [isDeclMsg]

/-- Every per-role check emits exactly one dimension diagnostic. -/
theorem countP_dim_check (asset : String × CheckCb) (hmem : asset ∈ art_assets)
    (report : List Record) (im : Img) (fp : String) (w h : Nat) :
    (asset.2 report im fp w h).countP (fun r => isDimensionMsg r.message) =
      report.countP (fun r => isDimensionMsg r.message) + 1 := by
  fin_cases hmem <;>
    · simp only [check_icon_eq, check_fanart_eq, check_screenshot_eq, check_banner_eq,
        check_clearlogo_eq, List.countP_append]
      split_ifs <;> simp [isDimensionMsg]

/-! ## Helper lemmas: the loose-image scan -/

theorem looseStep_eq (env : Env) (f : FileRecord) (report : List Record) :
    looseStep env f report = report ++
      (if looseImageMatch f.name ∧ env.decode (osJoin f.path f.name) = none
       then [⟨.PROBLEM, .looseCorrupted (env.relPath (osJoin f.path f.name))⟩] else []) := by
  simp only [looseStep, reportAdd]
  split
  · cases hd : env.decode (osJoin f.path f.name) <;> simp_all
  · simp_all

theorem looseScan_append (env : Env) (files : List FileRecord) (report : List Record) :
    looseScan env files report = report ++ looseScan env files [] := by
  induction files generalizing report with
  | nil => simp [looseScan]
  | cons f rest ih =>
    rw [looseScan, looseScan, ih (looseStep env f report), ih (looseStep env f []),
      looseStep_eq, looseStep_eq]
    simp

/-- Unfolding of the regex test into its start- and end-of-name parts. -/
theorem looseImageMatch_iff (name : String) :
    (looseImageMatch name = true) ↔
      ((¬ strStartsWith name "fanart.jpg") ∧ (¬ strStartsWith name "icon.png") ∧
       (¬ (dollarCore name).toList.contains '\n') ∧
       (strEndsWith (dollarCore name) ".png" ∨ strEndsWith (dollarCore name) ".jpg" ∨
        strEndsWith (dollarCore name) ".jpeg" ∨ strEndsWith (dollarCore name) ".gif")) := by
  simp [looseImageMatch, and_assoc, or_assoc]

/-- The loose-image scan from a fresh sink, as a `filterMap` over the file
index. -/
theorem looseScan_filterMap (env : Env) (files : List FileRecord) :
    looseScan env files [] = files.filterMap (fun f =>
      if looseImageMatch f.name ∧ env.decode (osJoin f.path f.name) = none
      then some ⟨.PROBLEM, .looseCorrupted (env.relPath (osJoin f.path f.name))⟩
      else none) := by
  induction files with
  | nil => simp [looseScan]
  | cons f rest ih =>
    rw [looseScan, looseScan_append, looseStep_eq, List.filterMap_cons, ih]
    by_cases hm : looseImageMatch f.name = true <;>
      by_cases hd : env.decode (osJoin f.path f.name) = none <;>
        simp [hm, hd]

/-- For a non-empty candidate entry whose file exists, `_check_image_type`
emits the existence INFORMATION, the version-gated declaration PROBLEM, and
then either hands over to the role callback or reports decode failure. -/
theorem checkImage_exists_eq (env : Env) (t : String) (cb : CheckCb) (fallback : Bool)
    (s : String) (h1 : s ≠ "") (h2 : env.isFile (osJoin env.addonPath s) = true) :
    checkImage env t cb fallback (some s) [] =
      (match env.decode (osJoin env.addonPath s) with
       | some im =>
         cb ([(⟨.INFORMATION, .imageExists t⟩ : Record)] ++
             (if fallback ∧ env.kodiGeKrypton then [⟨.PROBLEM, .shouldBeDeclared t⟩] else []))
           im (osJoin env.addonPath s) im.width im.height
       | none =>
         [(⟨.INFORMATION, .imageExists t⟩ : Record)] ++
           (if fallback ∧ env.kodiGeKrypton then [⟨.PROBLEM, .shouldBeDeclared t⟩] else []) ++
           [⟨.PROBLEM, .corrupted (env.relPath (osJoin env.addonPath s))⟩]) := by
  simp only [checkImage, reportAdd]
  rw [if_neg h1, if_pos h2]
  cases env.decode (osJoin env.addonPath s) <;> split_ifs <;> simp

/-! ## Claim theorems -/

/-- C1, counterexample: the claim says the validator emits no diagnostic
about a screenshot's transparency, but on a concrete addon whose declared
screenshot exists and decodes to a transparent 1280×720 image, the
validator emits the PROBLEM "Screenshot should be solid. addon/screenshot
has transparency.". -/
theorem C1_counterexample :
    (⟨.PROBLEM, .screenshotTransparent "addon/screenshot"⟩ : Record) ∈
      check_artwork envC1 [] := by decide

/-- C1 (amended): for every screenshot candidate that decodes successfully,
the screenshot rule checks transparency like the icon and banner rules: it
emits the "Screenshot should be solid" PROBLEM exactly when the decoded
image has an alpha channel. -/
theorem C1_screenshot_transparency_flagged (im : Img) (fp : String) (w h : Nat) :
    ((⟨.PROBLEM, .screenshotTransparent (splitext fp).1⟩ : Record) ∈
        check_screenshot [] im fp w h) ↔ im.transparency = true := by
  rw [check_screenshot_eq]
  by_cases h1 : (splitext fp).2 ∉ [".jpg", ".jpeg"] <;>
    by_cases h3 : (w, h) ∉ screenshot_sizes <;>
      cases h2 : im.transparency <;>
        simp [h1, h2, h3]

/-- C2, counterexample: the claim says the scanner decodes every file whose
name ends in one of the four image suffixes and is not exactly `fanart.jpg`
or `icon.png`, and emits one PROBLEM per such file that fails to decode;
but both files of `envC2` meet that condition and fail to decode, and the
scan emits nothing: `icon.png.jpg` (ending in `.jpg`, different from both
literals) is rejected because the anchored regex lookahead excludes every
name that merely STARTS WITH `icon.png`, and the name `a`-newline-`b.png`
(ending in `.png`, different from both literals) is rejected because `.*`
cannot cross its interior newline. -/
theorem C2_counterexample :
    strEndsWith "icon.png.jpg" ".jpg" = true ∧
    "icon.png.jpg" ≠ "fanart.jpg" ∧ "icon.png.jpg" ≠ "icon.png" ∧
    strEndsWith "a\nb.png" ".png" = true ∧
    "a\nb.png" ≠ "fanart.jpg" ∧ "a\nb.png" ≠ "icon.png" ∧
    envC2.decode (osJoin "p" "icon.png.jpg") = none ∧
    envC2.decode (osJoin "p" "a\nb.png") = none ∧
    looseScan envC2 envC2.fileIndex [] = [] := by decide

/-- C2 (amended): the loose-image scanner attempts to decode a file record
if and only if the record's name does not start with `fanart.jpg`, does
not start with `icon.png`, and — after discounting at most one trailing
newline — is newline-free and ends with `.png`, `.jpg`, `.jpeg` or `.gif`
(case-sensitive); for every such matched file that fails to decode it
emits exactly one PROBLEM diagnostic, and it performs no other check on
loose images. -/
theorem C2_loose_scan_characterization (env : Env) (files : List FileRecord) :
    looseScan env files [] = files.filterMap (fun f =>
      if ((¬ strStartsWith f.name "fanart.jpg") ∧ (¬ strStartsWith f.name "icon.png") ∧
          (¬ (dollarCore f.name).toList.contains '\n') ∧
          (strEndsWith (dollarCore f.name) ".png" ∨ strEndsWith (dollarCore f.name) ".jpg" ∨
           strEndsWith (dollarCore f.name) ".jpeg" ∨ strEndsWith (dollarCore f.name) ".gif")) ∧
         env.decode (osJoin f.path f.name) = none
      then some ⟨.PROBLEM, .looseCorrupted (env.relPath (osJoin f.path f.name))⟩
      else none) := by
  rw [looseScan_filterMap]
  congr 1
  funext f
  exact if_congr (and_congr_left fun _ => looseImageMatch_iff f.name) rfl rfl

/-- C8: the icon rule's three checks are independent: an icon decoding to
300×300 with extension `.jpg` and transparency yields exactly the three
PROBLEMs (format, transparency, dimensions) from one decode, while an icon
decoding to 256×256, opaque, with extension `.png` yields exactly the one
INFORMATION "Icon dimensions are fine 256x256" and no PROBLEM. -/
theorem C8_icon_checks_independent :
    check_icon [] ⟨300, 300, true⟩ "icon.jpg" 300 300 =
      [⟨.PROBLEM, .iconWrongFormat ".jpg"⟩, ⟨.PROBLEM, .iconTransparent⟩,
       ⟨.PROBLEM, .iconWrongSize 300 300⟩] ∧
    check_icon [] ⟨256, 256, false⟩ "icon.png" 256 256 =
      [⟨.INFORMATION, .iconSizeFine 256 256⟩] := by decide

/-- C9: the validator is deterministic: over one fixed environment (addon
tree, manifest, file index, platform version and external collaborators),
two runs each starting from a fresh empty diagnostic sink produce identical
diagnostic sequences. -/
theorem C9_deterministic (env : Env) (sink1 sink2 : List Record)
    (h1 : sink1 = []) (h2 : sink2 = []) :
    check_artwork env sink1 = check_artwork env sink2 := by
  rw [h1, h2]

/-- C9, witness: two runs over `env0` from fresh sinks agree. -/
theorem C9_witness : check_artwork env0 [] = check_artwork env0 [] :=
  C9_deterministic env0 [] [] rfl rfl

/-- C3: for the fanart role with zero manifest declarations, the resolver
yields `([], isFallback = false)` when the addon path contains any of the
substrings `.module.`, `metadata.`, `context.`, `.language.`
(case-sensitive), and `(["fanart.jpg"], isFallback = true)` otherwise. -/
theorem C3_fanart_fallback (parsed_xml : String → List (Option String)) (addon_path : String)
    (h : parsed_xml "fanart" = []) :
    assests "fanart" parsed_xml addon_path =
      if substrIn ".module." addon_path ∨ substrIn "metadata." addon_path ∨
         substrIn "context." addon_path ∨ substrIn ".language." addon_path
      then (false, [])
      else (true, [some "fanart.jpg"]) := by
  have hni : ("fanart" : String) ≠ "icon" := by decide
  by_cases hc : substrIn ".module." addon_path ∨ substrIn "metadata." addon_path ∨
      substrIn "context." addon_path ∨ substrIn ".language." addon_path
  · rw [if_pos hc]
    have hb : skip_addon_types.any (fun t => substrIn t addon_path) = true := by
      simp only [skip_addon_types, List.any_cons, List.any_nil, Bool.or_eq_true]
      tauto
    simp [assests, h, hni, hb]
  · rw [if_neg hc]
    have hb : skip_addon_types.any (fun t => substrIn t addon_path) = false := by
      cases hba : skip_addon_types.any (fun t => substrIn t addon_path)
      · rfl
      · exfalso
        apply hc
        have := hba
        simp only [skip_addon_types, List.any_cons, List.any_nil, Bool.or_eq_true,
          Bool.or_eq_false_iff] at this
        tauto
    simp [assests, h, hni, hb]

/-- C3, witness: with no declarations, a path containing `metadata.`
suppresses the fanart fallback, while an ordinary plugin path receives it. -/
theorem C3_witness :
    assests "fanart" (fun _ => []) "addons/metadata.common.x" = (false, []) ∧
    assests "fanart" (fun _ => []) "addons/plugin.video.x" = (true, [some "fanart.jpg"]) := by
  constructor
  · rw [C3_fanart_fallback (fun _ => []) "addons/metadata.common.x" rfl]
    decide
  · rw [C3_fanart_fallback (fun _ => []) "addons/plugin.video.x" rfl]
    decide

/-- C4: with zero manifest declarations, the icon role resolves to the
single fallback `icon.png` with `isFallback = true`, while the screenshot,
banner and clearlogo roles resolve to an empty list with
`isFallback = false`, and consequently `_check_image_type` emits no
diagnostic for those roles. -/
theorem C4_no_declaration_resolution (env : Env) (t : String) (h : env.assets t = []) :
    (t = "icon" → assests t env.assets env.addonPath = (true, [some "icon.png"])) ∧
    ((t = "screenshot" ∨ t = "banner" ∨ t = "clearlogo") →
      assests t env.assets env.addonPath = (false, []) ∧
      ∀ (cb : CheckCb) (report : List Record), check_image_type env (t, cb) report = report) := by
  constructor
  · rintro rfl
    simp [assests, h]
  · rintro (rfl | rfl | rfl) <;>
      exact ⟨by simp [assests, h], fun cb report => by
        simp [check_image_type, assests, h, checkImages]⟩

/-- C4, witness: resolution over `env0` (no declarations) for the icon and
screenshot roles, and the absence of screenshot diagnostics. -/
theorem C4_witness :
    assests "icon" env0.assets env0.addonPath = (true, [some "icon.png"]) ∧
    assests "screenshot" env0.assets env0.addonPath = (false, []) ∧
    check_image_type env0 ("screenshot", check_screenshot) [] = [] := by
  refine ⟨(C4_no_declaration_resolution env0 "icon" rfl).1 rfl, ?_, ?_⟩
  · exact ((C4_no_declaration_resolution env0 "screenshot" rfl).2 (Or.inl rfl)).1
  · exact ((C4_no_declaration_resolution env0 "screenshot" rfl).2 (Or.inl rfl)).2
      check_screenshot []

/-- C5: for every candidate entry of one of the five roles whose file
exists, the validator emits the INFORMATION "Image `role` exists", and it
emits the PROBLEM demanding explicit declaration exactly when the
resolution was a fallback and the Kodi version is at least krypton. -/
theorem C5_exists_and_declaration_gate (env : Env) (asset : String × CheckCb)
    (hmem : asset ∈ art_assets) (fallback : Bool) (s : String)
    (h1 : s ≠ "") (h2 : env.isFile (osJoin env.addonPath s) = true) :
    (⟨.INFORMATION, .imageExists asset.1⟩ : Record) ∈
        checkImage env asset.1 asset.2 fallback (some s) [] ∧
    (checkImage env asset.1 asset.2 fallback (some s) []).countP
        (fun r => isDeclMsg r.message) =
      (if fallback ∧ env.kodiGeKrypton then 1 else 0) := by
  rw [checkImage_exists_eq env asset.1 asset.2 fallback s h1 h2]
  cases hd : env.decode (osJoin env.addonPath s) with
  | none =>
    constructor
    · dsimp only
      split_ifs <;> simp
    · dsimp only
      split_ifs <;> simp [isDeclMsg]
  | some im =>
    constructor
    · dsimp only
      rw [check_append asset hmem]
      simp
    · dsimp only
      rw [countP_decl_check asset hmem]
      split_ifs <;> simp [isDeclMsg]

/-- C5, witness: over `env0` (Kodi at least krypton), a fallback icon that
exists yields the existence INFORMATION and exactly one declaration
PROBLEM. -/
theorem C5_witness :
    (⟨.INFORMATION, .imageExists "icon"⟩ : Record) ∈
        checkImage env0 "icon" check_icon true (some "icon.png") [] ∧
    (checkImage env0 "icon" check_icon true (some "icon.png") []).countP
        (fun r => isDeclMsg r.message) = 1 := by
  have h := C5_exists_and_declaration_gate env0 ("icon", check_icon)
    (by simp [art_assets]) true "icon.png" (by decide) rfl
  refine ⟨h.1, ?_⟩
  rw [h.2]
  decide

/-- C6: an empty or absent candidate entry yields exactly one WARNING (and
no file access is attempted: nothing else is emitted for it); a non-empty
entry whose file does not exist yields exactly one INFORMATION when the
resolution was a fallback and exactly one PROBLEM when it was not. -/
theorem C6_empty_and_missing_entries (env : Env) (t : String) (cb : CheckCb)
    (fallback : Bool) (report : List Record) (image : Option String) :
    (truthy image = false →
      checkImage env t cb fallback image report =
        report ++ [⟨.WARNING, .emptyImageTag t⟩]) ∧
    (∀ s, image = some s → s ≠ "" →
      env.isFile (osJoin env.addonPath s) = false →
      checkImage env t cb fallback image report =
        report ++ [if fallback then (⟨.INFORMATION, .mightWantToAdd t⟩ : Record)
                   else ⟨.PROBLEM, .doesNotExist t⟩]) := by
  constructor
  · intro ht
    cases image with
    | none => simp [checkImage, reportAdd]
    | some s =>
      have hs : s = "" := by
        by_contra hne
        simp [truthy, hne] at ht
      subst hs
      simp [checkImage, reportAdd]
  · rintro s rfl hne hfile
    simp only [checkImage, reportAdd]
    rw [if_neg hne, if_neg (by simp [hfile])]
    split_ifs <;> simp

/-- C6, witness: over `env1` (no file exists), an empty icon tag yields the
WARNING, and a declared banner entry whose file is missing yields the
PROBLEM. -/
theorem C6_witness :
    checkImage env1 "icon" check_icon false (some "") [] =
      [⟨.WARNING, .emptyImageTag "icon"⟩] ∧
    checkImage env1 "banner" check_banner false (some "missing.jpg") [] =
      [⟨.PROBLEM, .doesNotExist "banner"⟩] := by
  have ha := (C6_empty_and_missing_entries env1 "icon" check_icon false [] (some "")).1 rfl
  have hb := (C6_empty_and_missing_entries env1 "banner" check_banner false []
    (some "missing.jpg")).2 "missing.jpg" rfl (by decide) rfl
  exact ⟨by simpa using ha, by simpa using hb⟩

/-- C7: a candidate file that exists but fails to decode yields exactly one
PROBLEM naming the (relativized) offending path, after the existence
INFORMATION and the version-gated declaration PROBLEM; no rule diagnostic
is emitted for it, and the loop proceeds to the remaining entries. -/
theorem C7_decode_failure_recovered (env : Env) (t : String) (cb : CheckCb)
    (fallback : Bool) (report : List Record) (s : String) (rest : List (Option String))
    (h1 : s ≠ "") (h2 : env.isFile (osJoin env.addonPath s) = true)
    (h3 : env.decode (osJoin env.addonPath s) = none) :
    checkImage env t cb fallback (some s) report =
      report ++ [⟨.INFORMATION, .imageExists t⟩] ++
        (if fallback ∧ env.kodiGeKrypton then [⟨.PROBLEM, .shouldBeDeclared t⟩] else []) ++
        [⟨.PROBLEM, .corrupted (env.relPath (osJoin env.addonPath s))⟩] ∧
    checkImages env t cb fallback (some s :: rest) report =
      checkImages env t cb fallback rest (checkImage env t cb fallback (some s) report) := by
  refine ⟨?_, rfl⟩
  simp only [checkImage, reportAdd]
  rw [if_neg h1, if_pos h2, h3]
  split_ifs <;> simp

/-- C7, witness: over `env2` (every decode fails), a declared icon that
exists produces exactly the existence INFORMATION followed by the corrupted
PROBLEM. -/
theorem C7_witness :
    checkImage env2 "icon" check_icon false (some "icon.png") [] =
      [⟨.INFORMATION, .imageExists "icon"⟩,
       ⟨.PROBLEM, .corrupted "addon/icon.png"⟩] ∧
    checkImages env2 "icon" check_icon false (some "icon.png" :: []) [] =
      checkImages env2 "icon" check_icon false []
        (checkImage env2 "icon" check_icon false (some "icon.png") []) := by
  have h := C7_decode_failure_recovered env2 "icon" check_icon false [] "icon.png" []
    (by decide) rfl rfl
  refine ⟨?_, h.2⟩
  rw [h.1]
  decide

/-- C10: every per-role check appends exactly one dimension diagnostic per
decoded candidate — a PROBLEM exactly when the dimensions lie outside the
role's accepted set, an INFORMATION otherwise — and hence every
successfully decoded candidate of `_check_image_type` contributes at least
two diagnostics (the existence INFORMATION plus at least the dimension
diagnostic). -/
theorem C10_dimension_diagnostic (asset : String × CheckCb) (hmem : asset ∈ art_assets)
    (im : Img) (fp : String) :
    (asset.2 [] im fp im.width im.height).countP
        (fun r => isDimensionMsg r.message) = 1 ∧
    (asset.2 [] im fp im.width im.height).countP
        (fun r => isDimensionMsg r.message && decide (r.severity = .PROBLEM)) =
      (if (im.width, im.height) ∈ acceptedSizes asset.1 then 0 else 1) ∧
    ∀ (env : Env) (fallback : Bool) (s : String), s ≠ "" →
      env.isFile (osJoin env.addonPath s) = true →
      env.decode (osJoin env.addonPath s) = some im →
      2 ≤ (checkImage env asset.1 asset.2 fallback (some s) []).length := by
  refine ⟨?_, ?_, ?_⟩
  · simpa using countP_dim_check asset hmem [] im fp im.width im.height
  · fin_cases hmem <;>
      · simp only [check_icon_eq, check_fanart_eq, check_screenshot_eq, check_banner_eq,
          check_clearlogo_eq, List.countP_append, List.nil_append, acceptedSizes]
        split_ifs <;> simp_all [isDimensionMsg, required_banner_size]
  · intro env fallback s h1 h2 h3
    rw [checkImage_exists_eq env asset.1 asset.2 fallback s h1 h2]
    simp only [h3]
    rw [check_append asset hmem, List.length_append]
    have hd := countP_dim_check asset hmem [] im (osJoin env.addonPath s) im.width im.height
    simp only [List.countP_nil, Nat.zero_add] at hd
    have hlen := List.countP_le_length
      (p := fun r => isDimensionMsg r.message)
      (l := asset.2 [] im (osJoin env.addonPath s) im.width im.height)
    rw [hd] at hlen
    split_ifs
    · simp only [List.length_append, List.length_cons, List.length_nil]
      omega
    · simp only [List.length_append, List.length_cons, List.length_nil]
      omega

/-- C10, witness: the icon check on an opaque 256×256 `.png` emits exactly
one dimension diagnostic and no dimension PROBLEM, and a decoded fallback
icon over `env0` contributes at least two diagnostics. -/
theorem C10_witness :
    (check_icon [] ⟨256, 256, false⟩ "addon/icon.png" 256 256).countP
        (fun r => isDimensionMsg r.message) = 1 ∧
    (check_icon [] ⟨256, 256, false⟩ "addon/icon.png" 256 256).countP
        (fun r => isDimensionMsg r.message && decide (r.severity = .PROBLEM)) = 0 ∧
    2 ≤ (checkImage env0 "icon" check_icon true (some "icon.png") []).length := by
  have h := C10_dimension_diagnostic ("icon", check_icon) (by simp [art_assets])
    ⟨256, 256, false⟩ "addon/icon.png"
  refine ⟨by simpa using h.1, ?_, h.2.2 env0 true "icon.png" (by decide) rfl rfl⟩
  have h2 := h.2.1
  simp only at h2
  rw [h2]
  decide

end CheckArtwork
